import Mathlib

/-!
# ESP-NOW group broadcast: broadcaster and group listener

A shallow embedding of `espnow_broadcaster/main/main.c` and
`espnow_receiver_g1/main/main.c`.

* A byte is `Fin 256`; a C array is a `List Byte`; an object of a packed struct
  type is its byte image (field after field, no padding) and the struct value read
  from it.  The target (ESP32) is little-endian.
* `uint32_t` / `uint64_t` values are `Nat` reduced `% 2 ^ 32` / `% 2 ^ 64` where the
  C code converts or increments; `int` is `Int`.
* The ESP-NOW driver (`esp_now_is_peer_exist`, `esp_now_add_peer`, `esp_now_send`)
  and the clock (`esp_timer_get_time`) are outside the repository: the driver is an
  explicit peer registry with a send log, the clock value is an argument.
* `ESP_LOG*` output is an explicit list of events.
-/

namespace EspNow

/-! ## Bytes, C strings, little-endian integers -/

abbrev Byte := Fin 256

/-- A 6-byte hardware address (`uint8_t mac[6]`). -/
structure Mac where
  a0 : Byte
  a1 : Byte
  a2 : Byte
  a3 : Byte
  a4 : Byte
  a5 : Byte
deriving DecidableEq

/-- The bytes of a C string literal (ASCII), without the terminating NUL. -/
def cstr (s : String) : List Byte :=
  s.toList.map (fun c => (⟨c.toNat % 256, Nat.mod_lt _ (by decide)⟩ : Byte))

/-- The `w`-byte little-endian object representation of `v` (reduced mod `256 ^ w`). -/
def le_bytes : Nat → Nat → List Byte
  | 0, _ => []
  | w + 1, v => (⟨v % 256, Nat.mod_lt _ (by decide)⟩ : Byte) :: le_bytes w (v / 256)

/-- The value of a little-endian byte sequence. -/
def le_value : List Byte → Nat
  | [] => 0
  | b :: bs => b.val + 256 * le_value bs

/-- The byte at index `i` of an object image (0 outside it; never used outside). -/
def byte_at (img : List Byte) (i : Nat) : Byte := img.getD i 0

/-- `memcpy(dst, src, n)` on byte images: the first `n` bytes of `dst` are replaced by
the first `n` bytes of `src`. -/
def memcpy (dst src : List Byte) (n : Nat) : List Byte :=
  src.take n ++ dst.drop n

/-- `snprintf(field, cap, "%s", s)` into a zeroed field of `cap` bytes: the characters
of the C string `s` (up to its first NUL), cut to `cap - 1`, then NUL up to `cap`. -/
def snprintf_s (cap : Nat) (s : List Byte) : List Byte :=
  let body := (s.takeWhile (fun b => b != 0)).take (cap - 1)
  body ++ List.replicate (cap - body.length) 0

/-- What `%s` reads when given a pointer to offset `off` of the object `img`: the bytes
up to the first NUL.  `none` when there is no NUL before the end of the object (the read
runs past the object). -/
def read_cstring (img : List Byte) (off : Nat) : Option (List Byte) :=
  let rest := img.drop off
  if rest.any (fun b => b == 0) then some (rest.takeWhile (fun b => b != 0)) else none

/-- `(uint32_t)v`. -/
def to_uint32 (v : Nat) : Nat := v % 2 ^ 32

/-- `(uint64_t)v`. -/
def to_uint64 (v : Nat) : Nat := v % 2 ^ 64

/-- `(uint64_t)(esp_timer_get_time() / 1000ULL)` for a clock reading `now_us`
(microseconds since boot). -/
def millis_u64 (now_us : Nat) : Nat := to_uint64 (to_uint64 now_us / 1000)

/-! ## The ESP-NOW driver -/

/-- The fields of `esp_now_peer_info_t` that the programs set (all on `WIFI_IF_STA`). -/
structure esp_now_peer_info_t where
  peer_addr : Mac
  channel : Nat
  encrypt : Bool
deriving DecidableEq

/-- One call of `esp_now_send`: destination, payload, and whether the driver accepted it
(`ESP_OK`). -/
structure SendCall where
  dst : Mac
  data : List Byte
  ok : Bool
deriving DecidableEq

/-- Modelled from the spec: the transport adapter's peer registry and send log (the
ESP-NOW driver of ESP-IDF, which is not part of the repository).  `max_peers` is the
registration capacity. -/
structure Driver where
  peers : List esp_now_peer_info_t
  max_peers : Nat
  sent : List SendCall
deriving DecidableEq

/-- Modelled from the spec: `peer_registry.exists(address)`. -/
def esp_now_is_peer_exist (d : Driver) (mac : Mac) : Bool :=
  d.peers.any (fun p => p.peer_addr == mac)

/-- Modelled from the spec: `peer_registry.add`; it fails when the address is already
registered or the table is full, and otherwise appends the entry.  The result is
`true` for `ESP_OK`. -/
def esp_now_add_peer (d : Driver) (p : esp_now_peer_info_t) : Bool × Driver :=
  if esp_now_is_peer_exist d p.peer_addr then (false, d)
  else if d.max_peers ≤ d.peers.length then (false, d)
  else (true, { d with peers := d.peers ++ [p] })

/-- Modelled from the spec: `esp_now_mod_peer`; replaces the entry of a registered
address. -/
def esp_now_mod_peer (d : Driver) (p : esp_now_peer_info_t) : Bool × Driver :=
  if esp_now_is_peer_exist d p.peer_addr then
    (true, { d with peers := d.peers.map (fun q => if q.peer_addr == p.peer_addr then p else q) })
  else (false, d)

/-- Modelled from the spec: `send(destination_address, buffer)`; every call is logged,
and it is accepted exactly when the destination is a registered peer. -/
def esp_now_send (d : Driver) (dst : Mac) (data : List Byte) : Bool × Driver :=
  let ok := esp_now_is_peer_exist d dst
  (ok, { d with sent := d.sent ++ [{ dst := dst, data := data, ok := ok }] })

/-- The argument `recv_info` of a receive callback; `src_addr` is a pointer and may be
null. -/
structure esp_now_recv_info_t where
  src_addr : Option Mac
deriving DecidableEq

/-! ## The broadcaster (`espnow_broadcaster/main/main.c`) -/

namespace Broadcaster

/-- `broadcast_mac`: the all-ones address. -/
def broadcast_mac : Mac := ⟨255, 255, 255, 255, 255, 255⟩

/-- The broadcaster's packed `broadcast_data_t`. -/
structure broadcast_data_t where
  sender_id : List Byte
  message : List Byte
  message_type : Byte
  group_id : Byte
  sequence_num : Nat
  timestamp_ms : Nat
deriving DecidableEq

/-- Widths in bytes of the fields of the broadcaster's `broadcast_data_t`, in declaration
order: `char[20]`, `char[180]`, `uint8_t`, `uint8_t`, `uint32_t`, `uint64_t`. -/
def field_widths : List Nat := [20, 180, 1, 1, 4, 8]

/-- `sizeof(broadcast_data_t)` of the broadcaster: the struct is packed. -/
def sizeof_broadcast_data_t : Nat := field_widths.sum

/-- The object representation of a `broadcast_data_t` (what `(const uint8_t *)&pkt`
points to). -/
def to_bytes (p : broadcast_data_t) : List Byte :=
  p.sender_id ++ p.message ++ [p.message_type] ++ [p.group_id]
    ++ le_bytes 4 p.sequence_num ++ le_bytes 8 p.timestamp_ms

/-- The struct value held by an object image of `sizeof(broadcast_data_t)` bytes. -/
def of_bytes (img : List Byte) : broadcast_data_t :=
  { sender_id := img.take 20
    message := (img.drop 20).take 180
    message_type := byte_at img 200
    group_id := byte_at img 201
    sequence_num := le_value ((img.drop 202).take 4)
    timestamp_ms := le_value ((img.drop 206).take 8) }

/-- What the broadcaster writes with `ESP_LOG*`. -/
inductive Event where
  | reply_from (src : Mac) (len : Int)
  | payload_too_short (len : Int) (need : Nat)
  | reply (message : Option (List Byte)) (message_type group_id : Byte)
      (sequence_num timestamp_ms : Nat)
  | broadcasting (msg_type group_id : Byte) (message : Option (List Byte))
  | send_failed
deriving DecidableEq

/-- The broadcaster's mutable state: `sequence_counter` and the driver. -/
structure State where
  sequence_counter : Nat
  driver : Driver
deriving DecidableEq

/-- The object `reply` after `memcpy(&reply, data, sizeof(reply))` and
`reply.message[sizeof(reply.message)-1] = 0` (lines 61-63); `message` starts at offset
20.  All `sizeof(reply)` bytes of the uninitialised object are overwritten by the copy. -/
def reply_image (data : List Byte) : List Byte :=
  (memcpy (List.replicate sizeof_broadcast_data_t 0) data sizeof_broadcast_data_t).set
    (20 + (180 - 1)) 0

/-- `on_data_recv` of the broadcaster.  `none` is the dereference of a null `src_addr`
in the first log line. -/
def on_data_recv (recv_info : Option esp_now_recv_info_t) (data : List Byte) (len : Int) :
    Option (List Event) :=
  match recv_info with
  | none => some []
  | some i =>
    match i.src_addr with
    | none => none
    | some src =>
      if len < (sizeof_broadcast_data_t : Int) then
        some [Event.reply_from src len, Event.payload_too_short len sizeof_broadcast_data_t]
      else
        let img := reply_image data
        let reply := of_bytes img
        some [Event.reply_from src len,
              Event.reply (read_cstring img 20) reply.message_type reply.group_id
                reply.sequence_num reply.timestamp_ms]

/-- `init_espnow`: registers (or updates) the broadcast peer; `none` when an
`ESP_ERROR_CHECK` aborts. -/
def init_espnow (d : Driver) : Option Driver :=
  let peer_info : esp_now_peer_info_t := { peer_addr := broadcast_mac, channel := 0, encrypt := false }
  let r := if esp_now_is_peer_exist d broadcast_mac then esp_now_mod_peer d peer_info
           else esp_now_add_peer d peer_info
  if r.1 then some r.2 else none

/-- The object `pkt` that `send_broadcast` fills in (lines 117-126), given the value
`counter` of `++sequence_counter`. -/
def send_broadcast_pkt (counter : Nat) (message : List Byte) (msg_type group_id : Byte)
    (now_us : Nat) : broadcast_data_t :=
  { sender_id := snprintf_s 20 (cstr "MASTER_001")
    message := snprintf_s 180 message
    message_type := msg_type
    group_id := group_id
    sequence_num := counter
    timestamp_ms := millis_u64 now_us }

/-- `send_broadcast(message, msg_type, group_id)` at clock reading `now_us`. -/
def send_broadcast (st : State) (message : List Byte) (msg_type group_id : Byte)
    (now_us : Nat) : State × List Event :=
  let counter := to_uint32 (st.sequence_counter + 1)
  let img := to_bytes (send_broadcast_pkt counter message msg_type group_id now_us)
  let r := esp_now_send st.driver broadcast_mac img
  ({ sequence_counter := counter, driver := r.2 },
   [Event.broadcasting msg_type group_id (read_cstring img 20)]
     ++ (if r.1 then [] else [Event.send_failed]))

/-- `count++` on an `int` (two's complement wrap-around). -/
def int_succ (count : Int) : Int :=
  if count + 1 < 2 ^ 31 then count + 1 else count + 1 - 2 ^ 32

/-- The loop state of `app_main`: the program state, `count`, and the log. -/
structure Loop where
  st : State
  count : Int
  log : List Event
deriving DecidableEq

/-- One iteration of the `while (1)` loop of `app_main` at clock reading `now_us`
(`%` on `int` truncates towards zero). -/
def loop_body (l : Loop) (now_us : Nat) : Loop :=
  let r : State × List Event :=
    match Int.tmod l.count 4 with
    | 0 => send_broadcast l.st (cstr "General announcement to all devices") 1 0 now_us
    | 1 => send_broadcast l.st (cstr "Command for Group 1 devices") 2 1 now_us
    | 2 => send_broadcast l.st (cstr "Alert for Group 2 devices") 3 2 now_us
    | 3 => send_broadcast l.st (cstr "Status update for all groups") 1 0 now_us
    | _ => (l.st, [])
  { st := r.1, count := int_succ l.count, log := l.log ++ r.2 }

/-- The first `k` iterations of the loop; iteration `i` (from 0) reads the clock as
`clock i`. -/
def iterate (clock : Nat → Nat) : Nat → Loop → Loop
  | 0, l => l
  | k + 1, l => loop_body (iterate clock k l) (clock k)

/-- The state in which `app_main` enters its loop, for a driver `d` as left by
`init_espnow`: `sequence_counter = 0`, `count = 0`. -/
def loop_start (d : Driver) : Loop :=
  { st := { sequence_counter := 0, driver := d }, count := 0, log := [] }

end Broadcaster

/-! ## The group listener (`espnow_receiver_g1/main/main.c`) -/

namespace ReceiverG1

/-- `CHANNEL`. -/
def CHANNEL : Nat := 1

/-- `MY_NODE_ID`. -/
def MY_NODE_ID : List Byte := cstr "NODE_003"

/-- `MY_GROUP_ID`. -/
def MY_GROUP_ID : Nat := 1

/-- The group listener's packed `broadcast_data_t`. -/
structure broadcast_data_t where
  sender_id : List Byte
  message : List Byte
  message_type : Byte
  group_id : Byte
  sequence_num : Nat
  timestamp_ms : Nat
deriving DecidableEq

/-- Widths in bytes of the fields of the listener's `broadcast_data_t`, in declaration
order: `char[20]`, `char[180]`, `uint8_t`, `uint8_t`, `uint32_t`, `uint32_t`. -/
def field_widths : List Nat := [20, 180, 1, 1, 4, 4]

/-- `sizeof(broadcast_data_t)` of the listener: the struct is packed. -/
def sizeof_broadcast_data_t : Nat := field_widths.sum

/-- The object representation of a `broadcast_data_t`. -/
def to_bytes (p : broadcast_data_t) : List Byte :=
  p.sender_id ++ p.message ++ [p.message_type] ++ [p.group_id]
    ++ le_bytes 4 p.sequence_num ++ le_bytes 4 p.timestamp_ms

/-- The struct value held by an object image of `sizeof(broadcast_data_t)` bytes. -/
def of_bytes (img : List Byte) : broadcast_data_t :=
  { sender_id := img.take 20
    message := (img.drop 20).take 180
    message_type := byte_at img 200
    group_id := byte_at img 201
    sequence_num := le_value ((img.drop 202).take 4)
    timestamp_ms := le_value ((img.drop 206).take 4) }

/-- What the listener writes with `ESP_LOG*`. -/
inductive Event where
  | from_mac (src : Mac)
  | duplicate_ignored (seq : Nat)
  | skip_group (group : Byte) (mine : Nat)
  | received (sender_id message : Option (List Byte)) (type_str : String) (group : Byte)
  | processing_command
  | add_peer_failed
  | sending_reply (reply_text : List Byte)
  | send_failed
  | separator
deriving DecidableEq

/-- The listener's mutable state: `s_last_seq` and the driver. -/
structure State where
  s_last_seq : Nat
  driver : Driver
deriving DecidableEq

/-- The object `ack` that `send_reply_to` fills in (lines 82-88). -/
def send_reply_to_ack (reply_text : List Byte) (now_us : Nat) : broadcast_data_t :=
  { sender_id := snprintf_s 20 MY_NODE_ID
    message := snprintf_s 180 reply_text
    message_type := 1
    group_id := ⟨MY_GROUP_ID % 256, Nat.mod_lt _ (by decide)⟩
    sequence_num := 0
    timestamp_ms := to_uint32 (to_uint64 now_us / 1000) }

/-- `send_reply_to(dst_mac, reply_text)` at clock reading `now_us`. -/
def send_reply_to (d : Driver) (dst_mac : Mac) (reply_text : List Byte) (now_us : Nat) :
    Driver × List Event :=
  let reg : Bool × Driver :=
    if !esp_now_is_peer_exist d dst_mac then
      esp_now_add_peer d { peer_addr := dst_mac, channel := CHANNEL, encrypt := false }
    else (true, d)
  if !reg.1 then (reg.2, [Event.add_peer_failed])
  else
    let r := esp_now_send reg.2 dst_mac (to_bytes (send_reply_to_ack reply_text now_us))
    (r.2, [Event.sending_reply reply_text] ++ (if r.1 then [] else [Event.send_failed]))

/-- The duplicate check of `on_data_recv` (lines 110-114) on the watermark `s_last_seq`
and the frame's `sequence_num`: whether the frame goes on, and the new watermark. -/
def duplicate_check (s_last_seq sequence_num : Nat) : Bool × Nat :=
  if sequence_num ≠ 0 ∧ sequence_num ≤ s_last_seq then (false, s_last_seq)
  else (true, if sequence_num > 0 then sequence_num else s_last_seq)

/-- The group filter of `on_data_recv` (line 117): `false` when the frame is skipped. -/
def group_filter (group_id : Byte) (my_group_id : Nat) : Bool :=
  !(group_id.val ≠ 0 ∧ group_id.val ≠ my_group_id)

/-- The object `rx` after `broadcast_data_t rx = {0}; memcpy(&rx, data, len < sizeof(rx) ?
len : sizeof(rx))`. -/
def rx_image (data : List Byte) (len : Int) : List Byte :=
  memcpy (List.replicate sizeof_broadcast_data_t 0) data
    (if len < (sizeof_broadcast_data_t : Int) then len else (sizeof_broadcast_data_t : Int)).toNat

/-- `type_str` of `on_data_recv`. -/
def type_str (message_type : Byte) : String :=
  if message_type = 1 then "INFO"
  else if message_type = 2 then "COMMAND"
  else if message_type = 3 then "ALERT"
  else "UNKNOWN"

/-- The source address when `info && info->src_addr` holds. -/
def src_of (info : Option esp_now_recv_info_t) : Option Mac :=
  info.bind (fun i => i.src_addr)

/-- The log line `log_mac("From", info->src_addr)`, written when there is a source
address. -/
def log_from (src : Option Mac) : List Event :=
  match src with
  | some m => [Event.from_mac m]
  | none => []

/-- `on_data_recv` of the group listener at clock reading `now_us`; `data = none` is a
null pointer. -/
def on_data_recv (st : State) (info : Option esp_now_recv_info_t) (data : Option (List Byte))
    (len : Int) (now_us : Nat) : State × List Event :=
  match data with
  | none => (st, [])
  | some buf =>
    if len ≤ 0 then (st, [])
    else
      let img := rx_image buf len
      let rx := of_bytes img
      let src : Option Mac := src_of info
      let ev_from : List Event := log_from src
      let chk := duplicate_check st.s_last_seq rx.sequence_num
      if !chk.1 then (st, ev_from ++ [Event.duplicate_ignored rx.sequence_num])
      else
        let st1 : State := { st with s_last_seq := chk.2 }
        if !group_filter rx.group_id MY_GROUP_ID then
          (st1, ev_from ++ [Event.skip_group rx.group_id MY_GROUP_ID])
        else
          let ev_recv : List Event :=
            [Event.received (read_cstring img 0) (read_cstring img 20)
               (type_str rx.message_type) rx.group_id]
          if rx.message_type = 2 then
            match src with
            | some m =>
              let r := send_reply_to st1.driver m (cstr "Command received and processed") now_us
              ({ st1 with driver := r.1 },
               ev_from ++ ev_recv ++ [Event.processing_command] ++ r.2 ++ [Event.separator])
            | none =>
              (st1, ev_from ++ ev_recv ++ [Event.processing_command, Event.separator])
          else (st1, ev_from ++ ev_recv ++ [Event.separator])

end ReceiverG1

end EspNow

/-! ## Concrete frames and states used in the examples -/

namespace EspNow

/-- A sample source address. -/
def sample_mac : Mac := ⟨0x3C, 0x8A, 0x1F, 0x5D, 0x1B, 0x1C⟩

/-- A driver with an empty registry of capacity 20 and an empty send log. -/
def empty_driver : Driver := { peers := [], max_peers := 20, sent := [] }

/-- A 206-byte buffer (4 bytes shorter than the listener's `broadcast_data_t`): empty
strings, `message_type = 2`, `group_id = 1`, `sequence_num = 5`, no timestamp bytes. -/
def short_command_frame : List Byte := List.replicate 200 0 ++ [2, 1, 5, 0, 0, 0]

/-- A 201-byte buffer cut off after `message_type`: empty strings and
`message_type = 2`; `group_id` and `sequence_num` are not in the buffer. -/
def truncated_command_frame : List Byte := List.replicate 200 0 ++ [2]

/-- A 206-byte buffer of a foreign group: empty strings, `message_type = 3`,
`group_id = 2`, `sequence_num = 7`. -/
def foreign_alert_frame : List Byte := List.replicate 200 0 ++ [3, 2, 7, 0, 0, 0]

/-- A 210-byte buffer without any NUL byte: every byte is 1 (so `message_type = 1`,
`group_id = 1`, `sequence_num = 0x01010101`). -/
def no_nul_frame : List Byte := List.replicate 210 1

/-- A 214-byte buffer without any NUL byte. -/
def no_nul_frame_214 : List Byte := List.replicate 214 1

end EspNow

set_option maxRecDepth 100000

/-! ## Basic facts about the encoding -/

namespace EspNow

theorem length_le_bytes (w v : Nat) : (le_bytes w v).length = w := by
  induction w generalizing v with
  | zero => rfl
  | succ w ih => simp [le_bytes, ih]

theorem le_value_le_bytes (w v : Nat) : le_value (le_bytes w v) = v % 256 ^ w := by
  induction w generalizing v with
  | zero => simp [le_bytes, le_value, Nat.mod_one]
  | succ w ih =>
    simp only [le_bytes, le_value, ih]
    rw [pow_succ', Nat.mod_mul]

theorem length_snprintf_s (cap : Nat) (s : List Byte) : (snprintf_s cap s).length = cap := by
  simp only [snprintf_s, List.length_append, List.length_replicate, List.length_take]
  omega

end EspNow

/-! ## The group listener: the paths of `on_data_recv` -/

namespace EspNow.ReceiverG1

theorem duplicate_check_pass (w s : Nat) :
    (duplicate_check w s).1 = true ↔ (s = 0 ∨ s > w) := by
  unfold duplicate_check
  split
  · next h => simp only [Bool.false_eq_true, false_iff]; omega
  · next h => simp only [true_iff]; omega

theorem duplicate_check_watermark (w s : Nat) :
    (duplicate_check w s).2 = if s > w then s else w := by
  unfold duplicate_check
  split
  · next h => rw [if_neg (by omega)]
  · next h =>
    by_cases hs : s > w
    · simp only [hs, if_true]; rw [if_pos (by omega)]
    · have h0 : s = 0 := by omega
      subst h0; simp

theorem group_filter_iff (g : Byte) (m : Nat) :
    group_filter g m = true ↔ (g.val = 0 ∨ g.val = m) := by
  unfold group_filter
  by_cases h0 : g.val = 0 <;> by_cases hm : g.val = m <;> simp [h0, hm]

theorem on_data_recv_empty (st : State) (info : Option esp_now_recv_info_t)
    (data : Option (List Byte)) (len : Int) (now : Nat) (h : data = none ∨ len ≤ 0) :
    on_data_recv st info data len now = (st, []) := by
  unfold on_data_recv
  cases data with
  | none => rfl
  | some buf =>
    rcases h with h | h
    · cases h
    · simp only; rw [if_pos h]

theorem on_data_recv_dup (st : State) (info : Option esp_now_recv_info_t) (buf : List Byte)
    (len : Int) (now : Nat) (hlen : 0 < len)
    (h : (duplicate_check st.s_last_seq (of_bytes (rx_image buf len)).sequence_num).1 = false) :
    on_data_recv st info (some buf) len now
      = (st, log_from (src_of info)
              ++ [Event.duplicate_ignored (of_bytes (rx_image buf len)).sequence_num]) := by
  unfold on_data_recv
  simp only
  rw [if_neg (by omega)]
  simp only [h, Bool.not_false, if_true]

theorem on_data_recv_skip (st : State) (info : Option esp_now_recv_info_t) (buf : List Byte)
    (len : Int) (now : Nat) (hlen : 0 < len)
    (h : (duplicate_check st.s_last_seq (of_bytes (rx_image buf len)).sequence_num).1 = true)
    (hg : group_filter (of_bytes (rx_image buf len)).group_id MY_GROUP_ID = false) :
    on_data_recv st info (some buf) len now
      = ({ st with s_last_seq :=
             (duplicate_check st.s_last_seq (of_bytes (rx_image buf len)).sequence_num).2 },
         log_from (src_of info)
           ++ [Event.skip_group (of_bytes (rx_image buf len)).group_id MY_GROUP_ID]) := by
  unfold on_data_recv
  simp only
  rw [if_neg (by omega)]
  simp only [h, hg, Bool.not_true, Bool.not_false, Bool.false_eq_true, if_false, if_true]

theorem on_data_recv_other (st : State) (info : Option esp_now_recv_info_t) (buf : List Byte)
    (len : Int) (now : Nat) (hlen : 0 < len)
    (h : (duplicate_check st.s_last_seq (of_bytes (rx_image buf len)).sequence_num).1 = true)
    (hg : group_filter (of_bytes (rx_image buf len)).group_id MY_GROUP_ID = true)
    (ht : (of_bytes (rx_image buf len)).message_type ≠ 2) :
    on_data_recv st info (some buf) len now
      = ({ st with s_last_seq :=
             (duplicate_check st.s_last_seq (of_bytes (rx_image buf len)).sequence_num).2 },
         log_from (src_of info)
           ++ [Event.received (read_cstring (rx_image buf len) 0)
                 (read_cstring (rx_image buf len) 20)
                 (type_str (of_bytes (rx_image buf len)).message_type)
                 (of_bytes (rx_image buf len)).group_id]
           ++ [Event.separator]) := by
  unfold on_data_recv
  simp only
  rw [if_neg (by omega)]
  simp only [h, hg, Bool.not_true, Bool.false_eq_true, if_false]
  rw [if_neg ht]

theorem on_data_recv_command (st : State) (info : Option esp_now_recv_info_t) (buf : List Byte)
    (len : Int) (now : Nat) (src : Mac) (hlen : 0 < len)
    (h : (duplicate_check st.s_last_seq (of_bytes (rx_image buf len)).sequence_num).1 = true)
    (hg : group_filter (of_bytes (rx_image buf len)).group_id MY_GROUP_ID = true)
    (ht : (of_bytes (rx_image buf len)).message_type = 2)
    (hsrc : src_of info = some src) :
    on_data_recv st info (some buf) len now
      = ({ s_last_seq :=
             (duplicate_check st.s_last_seq (of_bytes (rx_image buf len)).sequence_num).2,
           driver := (send_reply_to st.driver src
                        (cstr "Command received and processed") now).1 },
         [Event.from_mac src]
           ++ [Event.received (read_cstring (rx_image buf len) 0)
                 (read_cstring (rx_image buf len) 20)
                 (type_str (of_bytes (rx_image buf len)).message_type)
                 (of_bytes (rx_image buf len)).group_id]
           ++ [Event.processing_command]
           ++ (send_reply_to st.driver src (cstr "Command received and processed") now).2
           ++ [Event.separator]) := by
  unfold on_data_recv
  simp only
  rw [if_neg (by omega)]
  simp only [h, hg, Bool.not_true, Bool.false_eq_true, if_false]
  rw [if_pos ht]
  simp only [hsrc, log_from]

theorem on_data_recv_command_nosrc (st : State) (info : Option esp_now_recv_info_t)
    (buf : List Byte) (len : Int) (now : Nat) (hlen : 0 < len)
    (h : (duplicate_check st.s_last_seq (of_bytes (rx_image buf len)).sequence_num).1 = true)
    (hg : group_filter (of_bytes (rx_image buf len)).group_id MY_GROUP_ID = true)
    (ht : (of_bytes (rx_image buf len)).message_type = 2)
    (hsrc : src_of info = none) :
    on_data_recv st info (some buf) len now
      = ({ st with s_last_seq :=
             (duplicate_check st.s_last_seq (of_bytes (rx_image buf len)).sequence_num).2 },
         [Event.received (read_cstring (rx_image buf len) 0)
                 (read_cstring (rx_image buf len) 20)
                 (type_str (of_bytes (rx_image buf len)).message_type)
                 (of_bytes (rx_image buf len)).group_id]
           ++ [Event.processing_command, Event.separator]) := by
  unfold on_data_recv
  simp only
  rw [if_neg (by omega)]
  simp only [h, hg, Bool.not_true, Bool.false_eq_true, if_false]
  rw [if_pos ht]
  simp only [hsrc, log_from, List.nil_append]

theorem is_peer_exist_append (d : Driver) (p : esp_now_peer_info_t) (mac : Mac) :
    esp_now_is_peer_exist { d with peers := d.peers ++ [p] } mac
      = (esp_now_is_peer_exist d mac || (p.peer_addr == mac)) := by
  simp [esp_now_is_peer_exist, List.any_append]

theorem send_reply_to_known (d : Driver) (dst : Mac) (text : List Byte) (now : Nat)
    (h : esp_now_is_peer_exist d dst = true) :
    send_reply_to d dst text now
      = ({ d with sent := d.sent ++ [{ dst := dst,
                                       data := to_bytes (send_reply_to_ack text now),
                                       ok := true }] },
         [Event.sending_reply text]) := by
  simp [send_reply_to, esp_now_send, h]

theorem send_reply_to_new (d : Driver) (dst : Mac) (text : List Byte) (now : Nat)
    (h : esp_now_is_peer_exist d dst = false) (hroom : d.peers.length < d.max_peers) :
    send_reply_to d dst text now
      = ({ peers := d.peers ++ [{ peer_addr := dst, channel := CHANNEL, encrypt := false }],
           max_peers := d.max_peers,
           sent := d.sent ++ [{ dst := dst,
                                data := to_bytes (send_reply_to_ack text now),
                                ok := true }] },
         [Event.sending_reply text]) := by
  have hn : ¬ d.max_peers ≤ d.peers.length := by omega
  simp [send_reply_to, esp_now_send, esp_now_add_peer, h, hn, is_peer_exist_append]

theorem send_reply_to_full (d : Driver) (dst : Mac) (text : List Byte) (now : Nat)
    (h : esp_now_is_peer_exist d dst = false) (hfull : d.max_peers ≤ d.peers.length) :
    send_reply_to d dst text now = (d, [Event.add_peer_failed]) := by
  simp [send_reply_to, esp_now_add_peer, h, hfull]

/-- The events of `send_reply_to` are never reception or filtering events. -/
theorem send_reply_to_events (d : Driver) (dst : Mac) (text : List Byte) (now : Nat)
    (e : Event) (he : e ∈ (send_reply_to d dst text now).2) :
    e = Event.add_peer_failed ∨ e = Event.sending_reply text := by
  cases h : esp_now_is_peer_exist d dst with
  | true =>
    rw [send_reply_to_known d dst text now h] at he
    simp only [List.mem_singleton] at he
    exact Or.inr he
  | false =>
    by_cases hroom : d.peers.length < d.max_peers
    · rw [send_reply_to_new d dst text now h hroom] at he
      simp only [List.mem_singleton] at he
      exact Or.inr he
    · rw [send_reply_to_full d dst text now h (by omega)] at he
      simp only [List.mem_singleton] at he
      exact Or.inl he

theorem mem_log_from (src : Option Mac) (e : Event) (he : e ∈ log_from src) :
    ∃ m, e = Event.from_mac m := by
  cases src with
  | none => simp [log_from] at he
  | some m => simp only [log_from, List.mem_singleton] at he; exact ⟨m, he⟩

end EspNow.ReceiverG1

/-! ## The group listener: duplicate filter, group admission, order of the gates -/

namespace EspNow.ReceiverG1

/-- A frame that passes the duplicate check leaves the watermark as the check computed
it and is never logged as a duplicate. -/
theorem on_data_recv_pass (st : State) (info : Option esp_now_recv_info_t) (buf : List Byte)
    (len : Int) (now : Nat) (hlen : 0 < len)
    (h : (duplicate_check st.s_last_seq (of_bytes (rx_image buf len)).sequence_num).1 = true) :
    (on_data_recv st info (some buf) len now).1.s_last_seq
        = (duplicate_check st.s_last_seq (of_bytes (rx_image buf len)).sequence_num).2 ∧
    ∀ s, Event.duplicate_ignored s ∉ (on_data_recv st info (some buf) len now).2 := by
  cases hg : group_filter (of_bytes (rx_image buf len)).group_id MY_GROUP_ID with
  | false =>
    rw [on_data_recv_skip st info buf len now hlen h hg]
    refine ⟨rfl, fun s hmem => ?_⟩
    simp only [List.mem_append, List.mem_singleton] at hmem
    rcases hmem with hmem | hmem
    · obtain ⟨m, hm⟩ := mem_log_from _ _ hmem; cases hm
    · cases hmem
  | true =>
    by_cases ht : (of_bytes (rx_image buf len)).message_type = 2
    · cases hsrc : src_of info with
      | none =>
        rw [on_data_recv_command_nosrc st info buf len now hlen h hg ht hsrc]
        refine ⟨rfl, fun s hmem => ?_⟩
        simp at hmem
      | some src =>
        rw [on_data_recv_command st info buf len now src hlen h hg ht hsrc]
        refine ⟨rfl, fun s hmem => ?_⟩
        simp only [List.mem_append, List.mem_singleton] at hmem
        rcases hmem with (((hmem | hmem) | hmem) | hmem) | hmem
        · cases hmem
        · cases hmem
        · cases hmem
        · rcases send_reply_to_events _ _ _ _ _ hmem with h1 | h1 <;> cases h1
        · cases hmem
    · rw [on_data_recv_other st info buf len now hlen h hg ht]
      refine ⟨rfl, fun s hmem => ?_⟩
      simp only [List.mem_append, List.mem_singleton] at hmem
      rcases hmem with (hmem | hmem) | hmem
      · obtain ⟨m, hm⟩ := mem_log_from _ _ hmem; cases hm
      · cases hmem
      · cases hmem

/-- C1: the duplicate filter of the group listener.  For every watermark `w` and
sequence number `s`, the frame passes the duplicate check iff `s = 0` or `s > w`, and the
watermark afterwards is `s` when `s > w` and `w` otherwise; the handler `on_data_recv`
logs "duplicate ignored" for a frame exactly when its sequence number fails that test, and
leaves the watermark as stated; from watermark 0 the sequence numbers
5, 5, 3, 6, 6, 7 are admitted as true, false, false, true, false, true. -/
theorem duplicate_filter_spec :
    (∀ w s : Nat, ((duplicate_check w s).1 = true ↔ (s = 0 ∨ s > w)) ∧
        (duplicate_check w s).2 = (if s > w then s else w)) ∧
    (∀ (st : State) (info : Option esp_now_recv_info_t) (buf : List Byte) (now : Nat),
        buf ≠ [] →
        (Event.duplicate_ignored (of_bytes (rx_image buf buf.length)).sequence_num
            ∈ (on_data_recv st info (some buf) buf.length now).2
          ↔ ¬ ((of_bytes (rx_image buf buf.length)).sequence_num = 0
                ∨ (of_bytes (rx_image buf buf.length)).sequence_num > st.s_last_seq)) ∧
        (on_data_recv st info (some buf) buf.length now).1.s_last_seq
          = (if (of_bytes (rx_image buf buf.length)).sequence_num > st.s_last_seq
             then (of_bytes (rx_image buf buf.length)).sequence_num else st.s_last_seq)) ∧
    (duplicate_check 0 5 = (true, 5) ∧ duplicate_check 5 5 = (false, 5) ∧
     duplicate_check 5 3 = (false, 5) ∧ duplicate_check 5 6 = (true, 6) ∧
     duplicate_check 6 6 = (false, 6) ∧ duplicate_check 6 7 = (true, 7)) := by
  refine ⟨fun w s => ⟨duplicate_check_pass w s, duplicate_check_watermark w s⟩, ?_, ?_⟩
  · intro st info buf now hbuf
    have hlen : (0 : Int) < buf.length := by
      have : 0 < buf.length := List.length_pos.mpr hbuf
      omega
    have hp := duplicate_check_pass st.s_last_seq
      (of_bytes (rx_image buf buf.length)).sequence_num
    have hw := duplicate_check_watermark st.s_last_seq
      (of_bytes (rx_image buf buf.length)).sequence_num
    cases hc : (duplicate_check st.s_last_seq
        (of_bytes (rx_image buf buf.length)).sequence_num).1 with
    | true =>
      obtain ⟨h1, h2⟩ := on_data_recv_pass st info buf buf.length now hlen hc
      refine ⟨⟨fun hmem => absurd hmem (h2 _), fun hn => absurd (hp.mp hc) hn⟩, ?_⟩
      rw [h1, hw]
    | false =>
      have hrej : ¬ ((of_bytes (rx_image buf buf.length)).sequence_num = 0
          ∨ (of_bytes (rx_image buf buf.length)).sequence_num > st.s_last_seq) := by
        intro h
        rw [hp.mpr h] at hc
        cases hc
      rw [on_data_recv_dup st info buf buf.length now hlen hc]
      refine ⟨⟨fun _ => hrej, fun _ => by simp⟩, ?_⟩
      rw [if_neg (fun h => hrej (Or.inr h))]
  · decide

end EspNow.ReceiverG1

namespace EspNow.ReceiverG1

/-- C1 (example): the theorem at the 206-byte command frame (sequence number 5) and
watermark 0. -/
theorem duplicate_filter_spec_witness :
    short_command_frame ≠ [] ∧
    (Event.duplicate_ignored
          (of_bytes (rx_image short_command_frame short_command_frame.length)).sequence_num
        ∈ (on_data_recv ⟨0, empty_driver⟩ none (some short_command_frame)
             short_command_frame.length 0).2
      ↔ ¬ ((of_bytes (rx_image short_command_frame
              short_command_frame.length)).sequence_num = 0
            ∨ (of_bytes (rx_image short_command_frame
              short_command_frame.length)).sequence_num > 0)) ∧
    (on_data_recv ⟨0, empty_driver⟩ none (some short_command_frame)
        short_command_frame.length 0).1.s_last_seq = 5 := by
  have h := duplicate_filter_spec.2.1 ⟨0, empty_driver⟩ none short_command_frame 0 (by decide)
  exact ⟨by decide, h.1, by decide⟩

/-- A frame that passes both gates is reported, and is not logged as skipped. -/
theorem on_data_recv_admitted (st : State) (info : Option esp_now_recv_info_t)
    (buf : List Byte) (len : Int) (now : Nat) (hlen : 0 < len)
    (h : (duplicate_check st.s_last_seq (of_bytes (rx_image buf len)).sequence_num).1 = true)
    (hg : group_filter (of_bytes (rx_image buf len)).group_id MY_GROUP_ID = true) :
    Event.received (read_cstring (rx_image buf len) 0) (read_cstring (rx_image buf len) 20)
        (type_str (of_bytes (rx_image buf len)).message_type)
        (of_bytes (rx_image buf len)).group_id
      ∈ (on_data_recv st info (some buf) len now).2 ∧
    ∀ g m, Event.skip_group g m ∉ (on_data_recv st info (some buf) len now).2 := by
  by_cases ht : (of_bytes (rx_image buf len)).message_type = 2
  · cases hsrc : src_of info with
    | none =>
      rw [on_data_recv_command_nosrc st info buf len now hlen h hg ht hsrc]
      refine ⟨by simp, fun g m hmem => ?_⟩
      simp at hmem
    | some src =>
      rw [on_data_recv_command st info buf len now src hlen h hg ht hsrc]
      refine ⟨by simp, fun g m hmem => ?_⟩
      simp only [List.mem_append, List.mem_singleton] at hmem
      rcases hmem with (((hmem | hmem) | hmem) | hmem) | hmem
      · cases hmem
      · cases hmem
      · cases hmem
      · rcases send_reply_to_events _ _ _ _ _ hmem with h1 | h1 <;> cases h1
      · cases hmem
  · rw [on_data_recv_other st info buf len now hlen h hg ht]
    refine ⟨by simp, fun g m hmem => ?_⟩
    simp only [List.mem_append, List.mem_singleton] at hmem
    rcases hmem with (hmem | hmem) | hmem
    · obtain ⟨m, hm⟩ := mem_log_from _ _ hmem; cases hm
    · cases hmem
    · cases hmem

/-- C2: group admission of the group listener.  For every frame group `g` and own group
`m` the group filter lets the frame through iff `g = 0` or `g = m`; so group 0 is relevant
to every node, `g` is relevant to group `g`, and two different non-zero groups are not
relevant to each other.  In `on_data_recv` (own group `MY_GROUP_ID`) a frame that passed
the duplicate check is reported iff its group is 0 or `MY_GROUP_ID`, and is logged as
skipped otherwise. -/
theorem group_admission_spec :
    (∀ (g : Byte) (m : Nat), group_filter g m = true ↔ (g.val = 0 ∨ g.val = m)) ∧
    (∀ x : Nat, group_filter 0 x = true) ∧
    (∀ g : Byte, group_filter g g.val = true) ∧
    (∀ g1 g2 : Byte, g1 ≠ g2 → g1 ≠ 0 → g2 ≠ 0 → group_filter g1 g2.val = false) ∧
    (∀ (st : State) (info : Option esp_now_recv_info_t) (buf : List Byte) (now : Nat),
        buf ≠ [] →
        (duplicate_check st.s_last_seq
            (of_bytes (rx_image buf buf.length)).sequence_num).1 = true →
        ((Event.received (read_cstring (rx_image buf buf.length) 0)
              (read_cstring (rx_image buf buf.length) 20)
              (type_str (of_bytes (rx_image buf buf.length)).message_type)
              (of_bytes (rx_image buf buf.length)).group_id
            ∈ (on_data_recv st info (some buf) buf.length now).2)
          ↔ ((of_bytes (rx_image buf buf.length)).group_id.val = 0
              ∨ (of_bytes (rx_image buf buf.length)).group_id.val = MY_GROUP_ID)) ∧
        ((Event.skip_group (of_bytes (rx_image buf buf.length)).group_id MY_GROUP_ID
            ∈ (on_data_recv st info (some buf) buf.length now).2)
          ↔ ¬ ((of_bytes (rx_image buf buf.length)).group_id.val = 0
              ∨ (of_bytes (rx_image buf buf.length)).group_id.val = MY_GROUP_ID))) := by
  refine ⟨group_filter_iff, ?_, ?_, ?_, ?_⟩
  · intro x; exact (group_filter_iff 0 x).mpr (Or.inl rfl)
  · intro g; exact (group_filter_iff g g.val).mpr (Or.inr rfl)
  · intro g1 g2 hne h1 h2
    cases hf : group_filter g1 g2.val with
    | false => rfl
    | true =>
      exfalso
      rcases (group_filter_iff g1 g2.val).mp hf with h | h
      · exact h1 (Fin.ext h)
      · exact hne (Fin.ext h)
  · intro st info buf now hbuf hdup
    have hlen : (0 : Int) < buf.length := by
      have : 0 < buf.length := List.length_pos.mpr hbuf
      omega
    have hiff := group_filter_iff (of_bytes (rx_image buf buf.length)).group_id MY_GROUP_ID
    cases hg : group_filter (of_bytes (rx_image buf buf.length)).group_id MY_GROUP_ID with
    | true =>
      obtain ⟨h1, h2⟩ := on_data_recv_admitted st info buf buf.length now hlen hdup hg
      have hrel := hiff.mp hg
      exact ⟨⟨fun _ => hrel, fun _ => h1⟩, ⟨fun hmem => absurd hmem (h2 _ _),
        fun hn => absurd hrel hn⟩⟩
    | false =>
      have hrel : ¬ ((of_bytes (rx_image buf buf.length)).group_id.val = 0
          ∨ (of_bytes (rx_image buf buf.length)).group_id.val = MY_GROUP_ID) := by
        intro h
        rw [hiff.mpr h] at hg
        cases hg
      rw [on_data_recv_skip st info buf buf.length now hlen hdup hg]
      refine ⟨⟨fun hmem => ?_, fun h => absurd h hrel⟩, ⟨fun _ => hrel, fun _ => by simp⟩⟩
      exfalso
      simp only [List.mem_append, List.mem_singleton] at hmem
      rcases hmem with hmem | hmem
      · obtain ⟨m, hm⟩ := mem_log_from _ _ hmem; cases hm
      · cases hmem

/-- C2 (example): the theorem at the groups 2 and 1, and at the 206-byte command frame
(group 1) received with watermark 0. -/
theorem group_admission_spec_witness :
    group_filter 2 (1 : Byte).val = false ∧
    (Event.received (read_cstring (rx_image short_command_frame short_command_frame.length) 0)
        (read_cstring (rx_image short_command_frame short_command_frame.length) 20)
        (type_str (of_bytes (rx_image short_command_frame
          short_command_frame.length)).message_type)
        (of_bytes (rx_image short_command_frame short_command_frame.length)).group_id
      ∈ (on_data_recv ⟨0, empty_driver⟩ none (some short_command_frame)
          short_command_frame.length 0).2) :=
  ⟨group_admission_spec.2.2.2.1 2 1 (by decide) (by decide) (by decide),
   ((group_admission_spec.2.2.2.2 ⟨0, empty_driver⟩ none short_command_frame 0
      (by decide) (by decide)).1).mpr (by decide)⟩

/-- C9: order of the gates in the group listener.  For every watermark and every frame
of a foreign group (non-zero, different from `MY_GROUP_ID`) whose sequence number `s` is
above the watermark, `on_data_recv` only logs the skip (no report, no reply: the driver is
unchanged) and yet leaves the watermark at `s`; any following frame with a non-zero
sequence number `<= s`, whatever its group, is then rejected as a duplicate and changes
nothing. -/
theorem foreign_group_advances_watermark
    (st : State) (info : Option esp_now_recv_info_t) (buf : List Byte) (now : Nat)
    (hbuf : buf ≠ [])
    (hg0 : (of_bytes (rx_image buf buf.length)).group_id.val ≠ 0)
    (hgm : (of_bytes (rx_image buf buf.length)).group_id.val ≠ MY_GROUP_ID)
    (hs : (of_bytes (rx_image buf buf.length)).sequence_num > st.s_last_seq) :
    on_data_recv st info (some buf) buf.length now
      = ({ s_last_seq := (of_bytes (rx_image buf buf.length)).sequence_num,
           driver := st.driver },
         log_from (src_of info)
           ++ [Event.skip_group (of_bytes (rx_image buf buf.length)).group_id MY_GROUP_ID]) ∧
    ∀ (info2 : Option esp_now_recv_info_t) (buf2 : List Byte) (now2 : Nat),
      buf2 ≠ [] →
      (of_bytes (rx_image buf2 buf2.length)).sequence_num ≠ 0 →
      (of_bytes (rx_image buf2 buf2.length)).sequence_num
        ≤ (of_bytes (rx_image buf buf.length)).sequence_num →
      on_data_recv (on_data_recv st info (some buf) buf.length now).1 info2 (some buf2)
          buf2.length now2
        = ((on_data_recv st info (some buf) buf.length now).1,
           log_from (src_of info2)
             ++ [Event.duplicate_ignored (of_bytes (rx_image buf2 buf2.length)).sequence_num]) := by
  have hlen : (0 : Int) < buf.length := by
    have : 0 < buf.length := List.length_pos.mpr hbuf
    omega
  have hdup : (duplicate_check st.s_last_seq
      (of_bytes (rx_image buf buf.length)).sequence_num).1 = true :=
    (duplicate_check_pass _ _).mpr (Or.inr hs)
  have hgf : group_filter (of_bytes (rx_image buf buf.length)).group_id MY_GROUP_ID = false := by
    cases hf : group_filter (of_bytes (rx_image buf buf.length)).group_id MY_GROUP_ID with
    | false => rfl
    | true =>
      rcases (group_filter_iff _ _).mp hf with h | h
      · exact absurd h hg0
      · exact absurd h hgm
  have hfirst : on_data_recv st info (some buf) buf.length now
      = ({ s_last_seq := (of_bytes (rx_image buf buf.length)).sequence_num,
           driver := st.driver },
         log_from (src_of info)
           ++ [Event.skip_group (of_bytes (rx_image buf buf.length)).group_id MY_GROUP_ID]) := by
    rw [on_data_recv_skip st info buf buf.length now hlen hdup hgf,
      duplicate_check_watermark, if_pos hs]
  refine ⟨hfirst, ?_⟩
  intro info2 buf2 now2 hbuf2 hne hle
  have hlen2 : (0 : Int) < buf2.length := by
    have : 0 < buf2.length := List.length_pos.mpr hbuf2
    omega
  rw [hfirst]
  apply on_data_recv_dup _ info2 buf2 buf2.length now2 hlen2
  cases hc : (duplicate_check (of_bytes (rx_image buf buf.length)).sequence_num
      (of_bytes (rx_image buf2 buf2.length)).sequence_num).1 with
  | false => rfl
  | true =>
    rcases (duplicate_check_pass _ _).mp hc with h | h
    · exact absurd h hne
    · omega

end EspNow.ReceiverG1

namespace EspNow.ReceiverG1

/-- C9 (example): a foreign-group frame with sequence number 7 received at watermark 0,
followed by the command frame for group 1 with sequence number 5. -/
theorem foreign_group_advances_watermark_witness :
    on_data_recv ⟨0, empty_driver⟩ none (some foreign_alert_frame)
        foreign_alert_frame.length 0
      = ({ s_last_seq :=
             (of_bytes (rx_image foreign_alert_frame foreign_alert_frame.length)).sequence_num,
           driver := empty_driver },
         log_from (src_of none)
           ++ [Event.skip_group
                (of_bytes (rx_image foreign_alert_frame foreign_alert_frame.length)).group_id
                MY_GROUP_ID]) ∧
    on_data_recv (on_data_recv ⟨0, empty_driver⟩ none (some foreign_alert_frame)
          foreign_alert_frame.length 0).1 none (some short_command_frame)
          short_command_frame.length 0
        = ((on_data_recv ⟨0, empty_driver⟩ none (some foreign_alert_frame)
              foreign_alert_frame.length 0).1,
           log_from (src_of none)
             ++ [Event.duplicate_ignored
                  (of_bytes (rx_image short_command_frame
                    short_command_frame.length)).sequence_num]) :=
  ⟨(foreign_group_advances_watermark ⟨0, empty_driver⟩ none foreign_alert_frame 0
      (by decide) (by decide) (by decide) (by decide)).1,
   (foreign_group_advances_watermark ⟨0, empty_driver⟩ none foreign_alert_frame 0
      (by decide) (by decide) (by decide) (by decide)).2 none short_command_frame 0
      (by decide) (by decide) (by decide)⟩

/-- The handler sees the buffer only through the object `rx`. -/
theorem on_data_recv_congr (st : State) (info : Option esp_now_recv_info_t)
    (buf1 buf2 : List Byte) (len1 len2 : Int) (now : Nat) (h1 : 0 < len1) (h2 : 0 < len2)
    (h : rx_image buf1 len1 = rx_image buf2 len2) :
    on_data_recv st info (some buf1) len1 now = on_data_recv st info (some buf2) len2 now := by
  unfold on_data_recv
  simp only [if_neg (not_le.mpr h1), if_neg (not_le.mpr h2), h]

theorem sizeof_eq_210 : sizeof_broadcast_data_t = 210 := by decide

theorem rx_image_short (buf : List Byte) (h : buf.length < 210) :
    rx_image buf buf.length = buf ++ List.replicate (210 - buf.length) 0 := by
  unfold rx_image memcpy
  rw [sizeof_eq_210]
  have hlt : ((buf.length : Int) < ((210 : Nat) : Int)) := by omega
  rw [if_pos hlt, Int.toNat_ofNat, List.take_length, List.drop_replicate]

theorem rx_image_full (buf : List Byte) (h : 210 ≤ buf.length) :
    rx_image buf buf.length = buf.take 210 := by
  unfold rx_image memcpy
  rw [sizeof_eq_210]
  have hlt : ¬ ((buf.length : Int) < ((210 : Nat) : Int)) := by omega
  rw [if_neg hlt, Int.toNat_ofNat, List.drop_replicate, Nat.sub_self, List.replicate_zero,
    List.append_nil]

end EspNow.ReceiverG1

namespace EspNow.Broadcaster

theorem sizeof_eq_214 : sizeof_broadcast_data_t = 214 := by decide

theorem on_data_recv_short (src : Mac) (data : List Byte) (len : Int) (h : len < 214) :
    on_data_recv (some ⟨some src⟩) data len
      = some [Event.reply_from src len, Event.payload_too_short len 214] := by
  unfold on_data_recv
  simp only [sizeof_eq_214]
  have h2 : len < ((214 : Nat) : Int) := by omega
  rw [if_pos h2]

end EspNow.Broadcaster

namespace EspNow

/-- Every buffer of less than 214 bytes ends in the broadcaster's "payload too short"
branch, and without `recv_info` the broadcaster's handler does nothing. -/
theorem broadcaster_rejects_short_buffer :
    (∀ (src : Mac) (data : List Byte), data.length < Broadcaster.sizeof_broadcast_data_t →
        Broadcaster.on_data_recv (some ⟨some src⟩) data data.length
          = some [Broadcaster.Event.reply_from src data.length,
                  Broadcaster.Event.payload_too_short data.length
                    Broadcaster.sizeof_broadcast_data_t]) ∧
    (∀ (data : List Byte) (len : Int), Broadcaster.on_data_recv none data len = some []) := by
  refine ⟨?_, fun _ _ => rfl⟩
  intro src data h
  rw [Broadcaster.sizeof_eq_214] at h ⊢
  exact Broadcaster.on_data_recv_short src data data.length (by omega)

/-- The listener's handler on a buffer of `0 < len < 210` bytes: `rx` is the buffer
followed by zeros, and the handler does what it does on that 210-byte frame. -/
theorem listener_zero_extends_short_buffer (st : ReceiverG1.State)
    (info : Option esp_now_recv_info_t) (buf : List Byte) (now : Nat)
    (h0 : 0 < buf.length) (hlt : buf.length < ReceiverG1.sizeof_broadcast_data_t) :
    ReceiverG1.rx_image buf buf.length
      = buf ++ List.replicate (ReceiverG1.sizeof_broadcast_data_t - buf.length) 0 ∧
    ReceiverG1.on_data_recv st info (some buf) buf.length now
      = ReceiverG1.on_data_recv st info
          (some (buf ++ List.replicate (ReceiverG1.sizeof_broadcast_data_t - buf.length) 0))
          ReceiverG1.sizeof_broadcast_data_t now := by
  rw [ReceiverG1.sizeof_eq_210] at hlt ⊢
  refine ⟨ReceiverG1.rx_image_short buf hlt, ?_⟩
  have hlen : (buf ++ List.replicate (210 - buf.length) (0 : Byte)).length = 210 := by
    simp only [List.length_append, List.length_replicate]; omega
  apply ReceiverG1.on_data_recv_congr
  · omega
  · decide
  · rw [ReceiverG1.rx_image_short buf hlt]
    have h2 := ReceiverG1.rx_image_full (buf ++ List.replicate (210 - buf.length) (0 : Byte))
      (by omega)
    rw [hlen] at h2
    rw [h2, List.take_of_length_le (by omega)]

/-- C3 (code evaluated): the listener's `on_data_recv` does not reject a short buffer.
The 206-byte command frame, 4 bytes shorter than the listener's `broadcast_data_t`,
received at watermark 0 moves the watermark to 5, is reported as a COMMAND for group 1,
and is answered with one reply to its source; the 201-byte frame cut off after
`message_type`, received at watermark 1000, is read with `sequence_num = 0` and
`group_id = 0`, is reported and is answered as well.  The broadcaster's `on_data_recv`
on the same two buffers logs "payload too short" and reports nothing. -/
theorem listener_interprets_short_buffer :
    short_command_frame.length = 206 ∧
    short_command_frame.length < ReceiverG1.sizeof_broadcast_data_t ∧
    (ReceiverG1.on_data_recv ⟨0, empty_driver⟩ (some ⟨some sample_mac⟩)
        (some short_command_frame) short_command_frame.length 0).1.s_last_seq = 5 ∧
    ReceiverG1.Event.received (some []) (some []) "COMMAND" 1
      ∈ (ReceiverG1.on_data_recv ⟨0, empty_driver⟩ (some ⟨some sample_mac⟩)
          (some short_command_frame) short_command_frame.length 0).2 ∧
    (ReceiverG1.on_data_recv ⟨0, empty_driver⟩ (some ⟨some sample_mac⟩)
        (some short_command_frame) short_command_frame.length 0).1.driver.sent.map
          (fun c => (c.dst, c.ok, c.data.length))
      = [(sample_mac, true, 210)] ∧
    truncated_command_frame.length = 201 ∧
    ReceiverG1.Event.received (some []) (some []) "COMMAND" 0
      ∈ (ReceiverG1.on_data_recv ⟨1000, empty_driver⟩ (some ⟨some sample_mac⟩)
          (some truncated_command_frame) truncated_command_frame.length 0).2 ∧
    (ReceiverG1.on_data_recv ⟨1000, empty_driver⟩ (some ⟨some sample_mac⟩)
        (some truncated_command_frame) truncated_command_frame.length 0).1.driver.sent.map
          (fun c => (c.dst, c.ok, c.data.length))
      = [(sample_mac, true, 210)] ∧
    Broadcaster.on_data_recv (some ⟨some sample_mac⟩) short_command_frame
        short_command_frame.length
      = some [Broadcaster.Event.reply_from sample_mac 206,
              Broadcaster.Event.payload_too_short 206 214] ∧
    Broadcaster.on_data_recv (some ⟨some sample_mac⟩) truncated_command_frame
        truncated_command_frame.length
      = some [Broadcaster.Event.reply_from sample_mac 201,
              Broadcaster.Event.payload_too_short 201 214] := by
  decide

end EspNow

/-! ## Frame sizes on the two nodes -/

namespace EspNow

theorem Broadcaster.length_to_bytes_214 (p : Broadcaster.broadcast_data_t)
    (h1 : p.sender_id.length = 20) (h2 : p.message.length = 180) :
    (Broadcaster.to_bytes p).length = 214 := by
  simp only [Broadcaster.to_bytes, List.length_append, length_le_bytes, h1, h2,
    List.length_singleton]

theorem ReceiverG1.length_to_bytes_210 (p : ReceiverG1.broadcast_data_t)
    (h1 : p.sender_id.length = 20) (h2 : p.message.length = 180) :
    (ReceiverG1.to_bytes p).length = 210 := by
  simp only [ReceiverG1.to_bytes, List.length_append, length_le_bytes, h1, h2,
    List.length_singleton]

theorem Broadcaster.length_pkt (counter : Nat) (message : List Byte) (t g : Byte) (now : Nat) :
    (Broadcaster.to_bytes (Broadcaster.send_broadcast_pkt counter message t g now)).length
      = 214 :=
  Broadcaster.length_to_bytes_214 _ (length_snprintf_s _ _) (length_snprintf_s _ _)

theorem ReceiverG1.length_ack (text : List Byte) (now : Nat) :
    (ReceiverG1.to_bytes (ReceiverG1.send_reply_to_ack text now)).length = 210 :=
  ReceiverG1.length_to_bytes_210 _ (length_snprintf_s _ _) (length_snprintf_s _ _)

/-- C7 (code evaluated): each `broadcast_data_t` is the sum of its field widths, which is
the length of every frame the node sends, but the two sums differ: 214 bytes on the
broadcaster (`uint64_t timestamp_ms`) and 210 bytes on the group listener (`uint32_t
timestamp_ms`). -/
theorem wire_size_mismatch :
    Broadcaster.sizeof_broadcast_data_t = 20 + 180 + 1 + 1 + 4 + 8 ∧
    ReceiverG1.sizeof_broadcast_data_t = 20 + 180 + 1 + 1 + 4 + 4 ∧
    (∀ (counter : Nat) (message : List Byte) (t g : Byte) (now : Nat),
        (Broadcaster.to_bytes (Broadcaster.send_broadcast_pkt counter message t g now)).length
          = Broadcaster.sizeof_broadcast_data_t) ∧
    (∀ (text : List Byte) (now : Nat),
        (ReceiverG1.to_bytes (ReceiverG1.send_reply_to_ack text now)).length
          = ReceiverG1.sizeof_broadcast_data_t) ∧
    Broadcaster.sizeof_broadcast_data_t = 214 ∧
    ReceiverG1.sizeof_broadcast_data_t = 210 ∧
    Broadcaster.sizeof_broadcast_data_t ≠ ReceiverG1.sizeof_broadcast_data_t := by
  refine ⟨by decide, by decide, ?_, ?_, by decide, by decide, by decide⟩
  · intro counter message t g now
    rw [Broadcaster.sizeof_eq_214]; exact Broadcaster.length_pkt counter message t g now
  · intro text now
    rw [ReceiverG1.sizeof_eq_210]; exact ReceiverG1.length_ack text now

/-- The send log after `send_reply_to`: unchanged, or extended by one accepted call that
carries the image of `ack` to `dst_mac`. -/
theorem ReceiverG1.send_reply_to_sent (d : Driver) (dst : Mac) (text : List Byte) (now : Nat) :
    (ReceiverG1.send_reply_to d dst text now).1.sent = d.sent ∨
    (ReceiverG1.send_reply_to d dst text now).1.sent
      = d.sent ++ [{ dst := dst,
                     data := ReceiverG1.to_bytes (ReceiverG1.send_reply_to_ack text now),
                     ok := true }] := by
  cases h : esp_now_is_peer_exist d dst with
  | true => rw [ReceiverG1.send_reply_to_known d dst text now h]; exact Or.inr rfl
  | false =>
    by_cases hroom : d.peers.length < d.max_peers
    · rw [ReceiverG1.send_reply_to_new d dst text now h hroom]; exact Or.inr rfl
    · rw [ReceiverG1.send_reply_to_full d dst text now h (by omega)]; exact Or.inl rfl

/-- C10: no reply of the group listener is decoded by the broadcaster.  Whatever
`send_reply_to` hands to the driver is the image of its `ack`; for every reply text and
clock reading that frame has the listener's size, 210 bytes, which is less than the
broadcaster's 214, and the broadcaster's `on_data_recv`, given the frame with its true
length, logs only the source and "payload too short" (or nothing at all without
`recv_info`): no field of the reply is copied or reported. -/
theorem reply_too_short_for_broadcaster :
    (∀ (d : Driver) (dst : Mac) (text : List Byte) (now : Nat),
        (ReceiverG1.send_reply_to d dst text now).1.sent = d.sent ∨
        (ReceiverG1.send_reply_to d dst text now).1.sent
          = d.sent ++ [{ dst := dst,
                         data := ReceiverG1.to_bytes (ReceiverG1.send_reply_to_ack text now),
                         ok := true }]) ∧
    (∀ (text : List Byte) (now : Nat),
        (ReceiverG1.to_bytes (ReceiverG1.send_reply_to_ack text now)).length
          = ReceiverG1.sizeof_broadcast_data_t ∧
        (ReceiverG1.to_bytes (ReceiverG1.send_reply_to_ack text now)).length
          < Broadcaster.sizeof_broadcast_data_t ∧
        (∀ src : Mac,
          Broadcaster.on_data_recv (some ⟨some src⟩)
              (ReceiverG1.to_bytes (ReceiverG1.send_reply_to_ack text now))
              (ReceiverG1.to_bytes (ReceiverG1.send_reply_to_ack text now)).length
            = some [Broadcaster.Event.reply_from src 210,
                    Broadcaster.Event.payload_too_short 210 214]) ∧
        Broadcaster.on_data_recv none
            (ReceiverG1.to_bytes (ReceiverG1.send_reply_to_ack text now))
            (ReceiverG1.to_bytes (ReceiverG1.send_reply_to_ack text now)).length
          = some []) := by
  refine ⟨ReceiverG1.send_reply_to_sent, ?_⟩
  intro text now
  have hl := ReceiverG1.length_ack text now
  refine ⟨?_, ?_, ?_, rfl⟩
  · rw [ReceiverG1.sizeof_eq_210]; exact hl
  · rw [Broadcaster.sizeof_eq_214, hl]; decide
  · intro src
    rw [hl]
    exact Broadcaster.on_data_recv_short src _ _ (by decide)

/-- The broadcaster's `reply` has a NUL at index 179 of `message` (offset 199) for
every buffer of at least 214 bytes, so its `%s` read of `message` ends inside the object;
index 19 of `sender_id` is the byte received. -/
theorem Broadcaster.reply_image_terminated (data : List Byte) (h : 214 ≤ data.length) :
    byte_at (Broadcaster.reply_image data) (20 + 179) = 0 ∧
    byte_at (Broadcaster.reply_image data) 19 = byte_at data 19 ∧
    (read_cstring (Broadcaster.reply_image data) 20).isSome = true := by
  have hlen : (memcpy (List.replicate Broadcaster.sizeof_broadcast_data_t 0) data
      Broadcaster.sizeof_broadcast_data_t).length = 214 := by
    simp only [memcpy, Broadcaster.sizeof_eq_214, List.length_append, List.length_take,
      List.length_drop, List.length_replicate]
    omega
  have h19 : (memcpy (List.replicate Broadcaster.sizeof_broadcast_data_t 0) data
      Broadcaster.sizeof_broadcast_data_t)[19]? = data[19]? := by
    simp only [memcpy, Broadcaster.sizeof_eq_214]
    rw [List.getElem?_append_left (by simp only [List.length_take]; omega),
      List.getElem?_take_of_lt (by decide)]
  have h199 : byte_at (Broadcaster.reply_image data) (20 + 179) = 0 := by
    simp only [byte_at, Broadcaster.reply_image, List.getD_eq_getElem?_getD]
    rw [List.getElem?_set_self (by rw [hlen]; decide)]
    rfl
  refine ⟨h199, ?_, ?_⟩
  · simp only [byte_at, Broadcaster.reply_image, List.getD_eq_getElem?_getD]
    rw [List.getElem?_set_ne (by decide), h19]
  · have hl2 : (Broadcaster.reply_image data).length = 214 := by
      simp only [Broadcaster.reply_image, List.length_set]; exact hlen
    have hmem : (0 : Byte) ∈ (Broadcaster.reply_image data).drop 20 := by
      have hi : 179 < ((Broadcaster.reply_image data).drop 20).length := by
        rw [List.length_drop, hl2]; decide
      have hget : ((Broadcaster.reply_image data).drop 20)[179] = 0 := by
        rw [List.getElem_drop]
        have hb := h199
        simp only [byte_at, List.getD_eq_getElem?_getD] at hb
        rw [List.getElem?_eq_getElem (by rw [hl2]; decide)] at hb
        exact hb
      rw [← hget]
      exact List.getElem_mem hi
    unfold read_cstring
    simp only
    rw [if_pos]
    · rfl
    · rw [List.any_eq_true]
      exact ⟨0, hmem, by decide⟩

/-- C8 (code evaluated): the listener's `on_data_recv` does not terminate the strings.
On the 210-byte buffer without a NUL byte, received at watermark 0, the decoded `rx` has
the byte 1 at index 19 of `sender_id` (offset 19) and at index 179 of `message` (offset
199), the frame passes both gates, and both `%s` reads run past the end of `rx`
(`none`).  The broadcaster's `on_data_recv` on the 214-byte buffer without a NUL byte
reports the body cut at index 179. -/
theorem listener_reads_unterminated_strings :
    no_nul_frame.length = ReceiverG1.sizeof_broadcast_data_t ∧
    byte_at (ReceiverG1.rx_image no_nul_frame no_nul_frame.length) 19 = 1 ∧
    byte_at (ReceiverG1.rx_image no_nul_frame no_nul_frame.length) (20 + 179) = 1 ∧
    ReceiverG1.on_data_recv ⟨0, empty_driver⟩ none (some no_nul_frame) no_nul_frame.length 0
      = (⟨0x01010101, empty_driver⟩,
         [ReceiverG1.Event.received none none "INFO" 1, ReceiverG1.Event.separator]) ∧
    byte_at (Broadcaster.reply_image no_nul_frame_214) 19 = 1 ∧
    byte_at (Broadcaster.reply_image no_nul_frame_214) (20 + 179) = 0 ∧
    Broadcaster.on_data_recv (some ⟨some sample_mac⟩) no_nul_frame_214 no_nul_frame_214.length
      = some [Broadcaster.Event.reply_from sample_mac 214,
              Broadcaster.Event.reply (some (List.replicate 179 1)) 1 1 0x01010101
                0x0101010101010101] := by
  decide

end EspNow

/-! ## Reading the fields back from a frame -/

namespace EspNow

theorem le_bytes_add (a b v : Nat) :
    le_bytes (a + b) v = le_bytes a v ++ le_bytes b (v / 256 ^ a) := by
  induction a generalizing v with
  | zero => simp [le_bytes]
  | succ a ih =>
    have h : a + 1 + b = (a + b) + 1 := by omega
    rw [h]
    simp only [le_bytes, ih, List.cons_append, pow_succ', Nat.div_div_eq_div_mul]

theorem byte_at_append (pre : List Byte) (b : Byte) (post : List Byte) (k : Nat)
    (hk : pre.length = k) : byte_at (pre ++ b :: post) k = b := by
  subst hk
  induction pre with
  | nil => rfl
  | cons a pre ih => simpa [byte_at] using ih

/-- The fields of a packed image `sender_id | message | type | group | seq | rest`. -/
theorem image_fields (s m : List Byte) (t g : Byte) (q r : List Byte)
    (hs : s.length = 20) (hm : m.length = 180) (hq : q.length = 4) :
    (s ++ m ++ [t] ++ [g] ++ q ++ r).take 20 = s ∧
    ((s ++ m ++ [t] ++ [g] ++ q ++ r).drop 20).take 180 = m ∧
    byte_at (s ++ m ++ [t] ++ [g] ++ q ++ r) 200 = t ∧
    byte_at (s ++ m ++ [t] ++ [g] ++ q ++ r) 201 = g ∧
    ((s ++ m ++ [t] ++ [g] ++ q ++ r).drop 202).take 4 = q ∧
    (s ++ m ++ [t] ++ [g] ++ q ++ r).drop 206 = r := by
  refine ⟨?_, ?_, ?_, ?_, ?_, ?_⟩
  · have e : s ++ m ++ [t] ++ [g] ++ q ++ r = s ++ (m ++ [t] ++ [g] ++ q ++ r) := by
      simp only [List.append_assoc]
    rw [e, List.take_left' hs]
  · have e : s ++ m ++ [t] ++ [g] ++ q ++ r = s ++ (m ++ ([t] ++ [g] ++ q ++ r)) := by
      simp only [List.append_assoc]
    rw [e, List.drop_left' hs, List.take_left' hm]
  · have e : s ++ m ++ [t] ++ [g] ++ q ++ r = (s ++ m) ++ t :: ([g] ++ q ++ r) := by
      simp
    rw [e]
    exact byte_at_append _ _ _ _ (by simp only [List.length_append, hs, hm])
  · have e : s ++ m ++ [t] ++ [g] ++ q ++ r = (s ++ m ++ [t]) ++ g :: (q ++ r) := by
      simp
    rw [e]
    exact byte_at_append _ _ _ _ (by simp only [List.length_append, hs, hm, List.length_singleton])
  · have e : s ++ m ++ [t] ++ [g] ++ q ++ r = (s ++ m ++ [t] ++ [g]) ++ (q ++ r) := by
      simp only [List.append_assoc]
    have hl : (s ++ m ++ [t] ++ [g]).length = 202 := by
      simp only [List.length_append, hs, hm, List.length_singleton]
    rw [e, List.drop_left' hl, List.take_left' hq]
  · have hl : (s ++ m ++ [t] ++ [g] ++ q).length = 206 := by
      simp only [List.length_append, hs, hm, hq, List.length_singleton]
    rw [List.drop_left' hl]

/-- The broadcaster reads back from the image of `pkt` the struct it wrote. -/
theorem Broadcaster.of_bytes_to_bytes_pkt (p : Broadcaster.broadcast_data_t)
    (hs : p.sender_id.length = 20) (hm : p.message.length = 180)
    (hq : p.sequence_num < 2 ^ 32) (ht : p.timestamp_ms < 2 ^ 64) :
    Broadcaster.of_bytes (Broadcaster.to_bytes p) = p := by
  obtain ⟨h1, h2, h3, h4, h5, h6⟩ := image_fields p.sender_id p.message p.message_type
    p.group_id (le_bytes 4 p.sequence_num) (le_bytes 8 p.timestamp_ms) hs hm
    (length_le_bytes _ _)
  have h7 : List.take 8 (le_bytes 8 p.timestamp_ms) = le_bytes 8 p.timestamp_ms :=
    List.take_of_length_le (by rw [length_le_bytes])
  cases p with
  | mk s m t g q ts =>
    simp only [Broadcaster.of_bytes, Broadcaster.to_bytes] at *
    rw [h1, h2, h3, h4, h5, h6, h7, le_value_le_bytes, le_value_le_bytes,
      Nat.mod_eq_of_lt (by omega), Nat.mod_eq_of_lt (by omega)]

/-- The listener reads back from the image of `ack` the struct it wrote. -/
theorem ReceiverG1.of_bytes_to_bytes_ack (p : ReceiverG1.broadcast_data_t)
    (hs : p.sender_id.length = 20) (hm : p.message.length = 180)
    (hq : p.sequence_num < 2 ^ 32) (ht : p.timestamp_ms < 2 ^ 32) :
    ReceiverG1.of_bytes (ReceiverG1.to_bytes p) = p := by
  obtain ⟨h1, h2, h3, h4, h5, h6⟩ := image_fields p.sender_id p.message p.message_type
    p.group_id (le_bytes 4 p.sequence_num) (le_bytes 4 p.timestamp_ms) hs hm
    (length_le_bytes _ _)
  have h7 : List.take 4 (le_bytes 4 p.timestamp_ms) = le_bytes 4 p.timestamp_ms :=
    List.take_of_length_le (by rw [length_le_bytes])
  cases p with
  | mk s m t g q ts =>
    simp only [ReceiverG1.of_bytes, ReceiverG1.to_bytes] at *
    rw [h1, h2, h3, h4, h5, h6, h7, le_value_le_bytes, le_value_le_bytes,
      Nat.mod_eq_of_lt (by omega), Nat.mod_eq_of_lt (by omega)]

end EspNow

/-! ## The command auto-reply of the group listener -/

namespace EspNow.ReceiverG1

theorem ack_decoded (text : List Byte) (now : Nat) :
    of_bytes (to_bytes (send_reply_to_ack text now)) = send_reply_to_ack text now := by
  apply of_bytes_to_bytes_ack
  · exact length_snprintf_s _ _
  · exact length_snprintf_s _ _
  · simp [send_reply_to_ack]
  · simp only [send_reply_to_ack, to_uint32]
    exact Nat.mod_lt _ (by decide)

theorem send_reply_to_registered (d : Driver) (dst : Mac) (text : List Byte) (now : Nat)
    (hreg : esp_now_is_peer_exist d dst = true ∨ d.peers.length < d.max_peers) :
    (send_reply_to d dst text now).1.sent
        = d.sent ++ [{ dst := dst, data := to_bytes (send_reply_to_ack text now), ok := true }] ∧
    esp_now_is_peer_exist (send_reply_to d dst text now).1 dst = true := by
  cases h : esp_now_is_peer_exist d dst with
  | true =>
    rw [send_reply_to_known d dst text now h]
    exact ⟨rfl, h⟩
  | false =>
    have hroom : d.peers.length < d.max_peers := by
      rcases hreg with h2 | h2
      · rw [h] at h2; cases h2
      · exact h2
    rw [send_reply_to_new d dst text now h hroom]
    refine ⟨rfl, ?_⟩
    simp [esp_now_is_peer_exist, List.any_append]

/-- C4: command auto-reply of the group listener.  For every frame that passes the
duplicate check (`s = 0` or `s` above the watermark) and the group filter (group 0 or
`MY_GROUP_ID`), arrives with a source address `src`, and for which peer registration does
not fail (`src` is registered already or the registry has room): if `message_type = 2`
the handler calls `esp_now_send` exactly once, the send log grows by one call to `src`
that the driver accepts because `src` is a registered peer, `src` is registered
afterwards, and the payload is a 210-byte frame with `message_type = 1`,
`sequence_num = 0`, `group_id = MY_GROUP_ID` and `sender_id = MY_NODE_ID` (NUL-padded);
if `message_type` is anything else the driver (registry and send log) is unchanged. -/
theorem command_auto_reply (st : State) (info : Option esp_now_recv_info_t) (src : Mac)
    (buf : List Byte) (now : Nat)
    (hbuf : buf ≠ [])
    (hsrc : src_of info = some src)
    (hdup : (of_bytes (rx_image buf buf.length)).sequence_num = 0
              ∨ (of_bytes (rx_image buf buf.length)).sequence_num > st.s_last_seq)
    (hgrp : (of_bytes (rx_image buf buf.length)).group_id.val = 0
              ∨ (of_bytes (rx_image buf buf.length)).group_id.val = MY_GROUP_ID)
    (hreg : esp_now_is_peer_exist st.driver src = true
              ∨ st.driver.peers.length < st.driver.max_peers) :
    ((of_bytes (rx_image buf buf.length)).message_type = 2 →
        (on_data_recv st info (some buf) buf.length now).1.driver.sent
          = st.driver.sent
              ++ [{ dst := src,
                    data := to_bytes (send_reply_to_ack
                              (cstr "Command received and processed") now),
                    ok := true }] ∧
        esp_now_is_peer_exist (on_data_recv st info (some buf) buf.length now).1.driver src
          = true ∧
        (to_bytes (send_reply_to_ack (cstr "Command received and processed") now)).length
          = sizeof_broadcast_data_t ∧
        (of_bytes (to_bytes (send_reply_to_ack
            (cstr "Command received and processed") now))).message_type = 1 ∧
        (of_bytes (to_bytes (send_reply_to_ack
            (cstr "Command received and processed") now))).sequence_num = 0 ∧
        (of_bytes (to_bytes (send_reply_to_ack
            (cstr "Command received and processed") now))).group_id.val = MY_GROUP_ID ∧
        (of_bytes (to_bytes (send_reply_to_ack
            (cstr "Command received and processed") now))).sender_id
          = MY_NODE_ID ++ List.replicate 12 0) ∧
    ((of_bytes (rx_image buf buf.length)).message_type ≠ 2 →
        (on_data_recv st info (some buf) buf.length now).1.driver = st.driver) := by
  have hlen : (0 : Int) < buf.length := by
    have : 0 < buf.length := List.length_pos.mpr hbuf
    omega
  have h1 := (duplicate_check_pass _ _).mpr hdup
  have h2 := (group_filter_iff _ _).mpr hgrp
  constructor
  · intro ht
    rw [on_data_recv_command st info buf buf.length now src hlen h1 h2 ht hsrc]
    obtain ⟨hs1, hs2⟩ := send_reply_to_registered st.driver src
      (cstr "Command received and processed") now hreg
    rw [ack_decoded]
    refine ⟨hs1, hs2, ?_, rfl, rfl, ?_, ?_⟩
    · rw [sizeof_eq_210]; exact length_ack _ _
    · rfl
    · show snprintf_s 20 MY_NODE_ID = MY_NODE_ID ++ List.replicate 12 0
      decide
  · intro ht
    rw [on_data_recv_other st info buf buf.length now hlen h1 h2 ht]

/-- C4 (example): the 206-byte command frame (type 2, group 1, sequence number 5) from
the sample address, at watermark 0 with an empty registry of capacity 20: one reply goes
to the sample address. -/
theorem command_auto_reply_witness :
    (on_data_recv ⟨0, empty_driver⟩ (some ⟨some sample_mac⟩) (some short_command_frame)
        short_command_frame.length 99000).1.driver.sent
      = empty_driver.sent
          ++ [{ dst := sample_mac,
                data := to_bytes (send_reply_to_ack
                          (cstr "Command received and processed") 99000),
                ok := true }] :=
  ((command_auto_reply ⟨0, empty_driver⟩ (some ⟨some sample_mac⟩) sample_mac
      short_command_frame 99000 (by decide) (by decide) (by decide) (by decide)
      (by decide)).1 (by decide)).1

end EspNow.ReceiverG1

/-! ## The broadcast cycle of the broadcaster -/

namespace EspNow.Broadcaster

theorem send_broadcast_state (st : State) (message : List Byte) (t g : Byte) (now : Nat) :
    (send_broadcast st message t g now).1
      = { sequence_counter := to_uint32 (st.sequence_counter + 1),
          driver := { peers := st.driver.peers,
                      max_peers := st.driver.max_peers,
                      sent := st.driver.sent
                        ++ [{ dst := broadcast_mac,
                              data := to_bytes (send_broadcast_pkt
                                        (to_uint32 (st.sequence_counter + 1)) message t g now),
                              ok := esp_now_is_peer_exist st.driver broadcast_mac }] } } :=
  rfl

theorem pkt_decoded (counter : Nat) (message : List Byte) (t g : Byte) (now : Nat)
    (hc : counter < 2 ^ 32) :
    of_bytes (to_bytes (send_broadcast_pkt counter message t g now))
      = send_broadcast_pkt counter message t g now := by
  apply of_bytes_to_bytes_pkt
  · exact length_snprintf_s _ _
  · exact length_snprintf_s _ _
  · exact hc
  · simp only [send_broadcast_pkt, millis_u64, to_uint64]
    exact Nat.mod_lt _ (by decide)

/-- One iteration at `count = n`: the state after it is that of the `send_broadcast` call
selected by `n % 4`. -/
theorem loop_body_rotation (l : Loop) (n : Nat) (now : Nat) (hc : l.count = (n : Int)) :
    (n % 4 = 0 ∧ (loop_body l now).st
        = (send_broadcast l.st (cstr "General announcement to all devices") 1 0 now).1) ∨
    (n % 4 = 1 ∧ (loop_body l now).st
        = (send_broadcast l.st (cstr "Command for Group 1 devices") 2 1 now).1) ∨
    (n % 4 = 2 ∧ (loop_body l now).st
        = (send_broadcast l.st (cstr "Alert for Group 2 devices") 3 2 now).1) ∨
    (n % 4 = 3 ∧ (loop_body l now).st
        = (send_broadcast l.st (cstr "Status update for all groups") 1 0 now).1) := by
  have ht : Int.tmod l.count 4 = ((n % 4 : Nat) : Int) := by
    rw [hc]; exact (Int.ofNat_tmod n 4).symm
  have hlt : n % 4 < 4 := Nat.mod_lt _ (by decide)
  unfold loop_body
  rw [ht]
  rcases (by omega : n % 4 = 0 ∨ n % 4 = 1 ∨ n % 4 = 2 ∨ n % 4 = 3) with h | h | h | h
  · left; rw [h]; exact ⟨rfl, rfl⟩
  · right; left; rw [h]; exact ⟨rfl, rfl⟩
  · right; right; left; rw [h]; exact ⟨rfl, rfl⟩
  · right; right; right; rw [h]; exact ⟨rfl, rfl⟩

theorem loop_body_count (l : Loop) (now : Nat) : (loop_body l now).count = int_succ l.count :=
  rfl

/-- While `count` has not overflowed, after `k` iterations `count = k`,
`sequence_counter = k`, and the registry is the initial one. -/
theorem iterate_invariant (d : Driver) (clock : Nat → Nat) (k : Nat) (hk : k < 2 ^ 31) :
    (iterate clock k (loop_start d)).count = (k : Int) ∧
    (iterate clock k (loop_start d)).st.sequence_counter = k ∧
    (iterate clock k (loop_start d)).st.driver.peers = d.peers := by
  induction k with
  | zero => exact ⟨rfl, rfl, rfl⟩
  | succ k ih =>
    obtain ⟨h1, h2, h3⟩ := ih (by omega)
    have hstep : iterate clock (k + 1) (loop_start d)
        = loop_body (iterate clock k (loop_start d)) (clock k) := rfl
    rw [hstep]
    refine ⟨?_, ?_, ?_⟩
    · rw [loop_body_count, h1]
      unfold int_succ
      rw [if_pos (by omega)]
      omega
    · rcases loop_body_rotation _ k (clock k) h1 with h | h | h | h <;>
        (rw [h.2, send_broadcast_state, h2]
         simp only [to_uint32]
         exact Nat.mod_eq_of_lt (by omega))
    · rcases loop_body_rotation _ k (clock k) h1 with h | h | h | h <;>
        (rw [h.2, send_broadcast_state]; exact h3)

end EspNow.Broadcaster

namespace EspNow.Broadcaster

/-- The send log after iteration `n + 1` is the log after iteration `n` plus one call to
the broadcast address carrying the image of a `pkt` with counter `n + 1` and the type and
group selected by `n % 4`. -/
theorem iterate_step_sent (d : Driver) (clock : Nat → Nat) (n : Nat) (hn : n < 2 ^ 31) :
    ∃ (message : List Byte) (t g : Byte),
      ((n % 4 = 0 ∧ t = 1 ∧ g = 0) ∨ (n % 4 = 1 ∧ t = 2 ∧ g = 1) ∨
       (n % 4 = 2 ∧ t = 3 ∧ g = 2) ∨ (n % 4 = 3 ∧ t = 1 ∧ g = 0)) ∧
      (iterate clock (n + 1) (loop_start d)).st.driver.sent
        = (iterate clock n (loop_start d)).st.driver.sent
            ++ [{ dst := broadcast_mac,
                  data := to_bytes (send_broadcast_pkt (n + 1) message t g (clock n)),
                  ok := esp_now_is_peer_exist d broadcast_mac }] := by
  obtain ⟨h1, h2, h3⟩ := iterate_invariant d clock n hn
  have hstep : iterate clock (n + 1) (loop_start d)
      = loop_body (iterate clock n (loop_start d)) (clock n) := rfl
  have hu : to_uint32 (n + 1) = n + 1 := Nat.mod_eq_of_lt (by omega)
  have hex : esp_now_is_peer_exist (iterate clock n (loop_start d)).st.driver broadcast_mac
      = esp_now_is_peer_exist d broadcast_mac := by
    simp only [esp_now_is_peer_exist, h3]
  rcases loop_body_rotation _ n (clock n) h1 with h | h | h | h
  · refine ⟨cstr "General announcement to all devices", 1, 0, Or.inl ⟨h.1, rfl, rfl⟩, ?_⟩
    rw [hstep, h.2, send_broadcast_state, h2, hu, hex]
  · refine ⟨cstr "Command for Group 1 devices", 2, 1, Or.inr (Or.inl ⟨h.1, rfl, rfl⟩), ?_⟩
    rw [hstep, h.2, send_broadcast_state, h2, hu, hex]
  · refine ⟨cstr "Alert for Group 2 devices", 3, 2,
      Or.inr (Or.inr (Or.inl ⟨h.1, rfl, rfl⟩)), ?_⟩
    rw [hstep, h.2, send_broadcast_state, h2, hu, hex]
  · refine ⟨cstr "Status update for all groups", 1, 0,
      Or.inr (Or.inr (Or.inr ⟨h.1, rfl, rfl⟩)), ?_⟩
    rw [hstep, h.2, send_broadcast_state, h2, hu, hex]

/-- `init_espnow` leaves the broadcast address registered. -/
theorem init_espnow_registers (d0 d : Driver) (h : init_espnow d0 = some d) :
    esp_now_is_peer_exist d broadcast_mac = true := by
  unfold init_espnow at h
  simp only at h
  cases hex : esp_now_is_peer_exist d0 broadcast_mac with
  | true =>
    simp only [hex, if_true, esp_now_mod_peer] at h
    cases h
    simp only [esp_now_is_peer_exist, List.any_map, List.any_eq_true, Function.comp] at hex ⊢
    obtain ⟨q, hq, hqa⟩ := hex
    refine ⟨q, hq, ?_⟩
    simp only [hqa, if_true]
    decide
  | false =>
    simp only [hex, esp_now_add_peer] at h
    by_cases hfull : d0.max_peers ≤ d0.peers.length
    · simp [hfull] at h
    · simp only [hfull, if_false, Bool.false_eq_true] at h
      cases h
      simp [esp_now_is_peer_exist, List.any_append]

/-- C5: the broadcast cycle of the broadcaster.  From the state in which `app_main`
enters its loop (`sequence_counter = 0`, `count = 0`), for every `n < 2 ^ 31` the
`(n + 1)`-th iteration adds exactly one `esp_now_send` call to the log: its destination is
the all-ones address, its payload is a 214-byte frame with `sequence_num = n + 1` and
`(message_type, group_id)` equal to (1,0), (2,1), (3,2), (1,0) for `n % 4` = 0, 1, 2, 3,
and the driver accepts it when the broadcast peer is registered, as `init_espnow` leaves
it.  The first four broadcasts carry the sequence numbers 1, 2, 3, 4 and the pairs (1,0),
(2,1), (3,2), (1,0). -/
theorem broadcast_cycle :
    (∀ (d : Driver) (clock : Nat → Nat) (n : Nat), n < 2 ^ 31 →
      ∃ frame : List Byte,
        (iterate clock (n + 1) (loop_start d)).st.driver.sent
          = (iterate clock n (loop_start d)).st.driver.sent
              ++ [{ dst := broadcast_mac, data := frame,
                    ok := esp_now_is_peer_exist d broadcast_mac }] ∧
        broadcast_mac = ⟨255, 255, 255, 255, 255, 255⟩ ∧
        frame.length = sizeof_broadcast_data_t ∧
        (of_bytes frame).sequence_num = n + 1 ∧
        (n % 4 = 0 → ((of_bytes frame).message_type, (of_bytes frame).group_id) = (1, 0)) ∧
        (n % 4 = 1 → ((of_bytes frame).message_type, (of_bytes frame).group_id) = (2, 1)) ∧
        (n % 4 = 2 → ((of_bytes frame).message_type, (of_bytes frame).group_id) = (3, 2)) ∧
        (n % 4 = 3 → ((of_bytes frame).message_type, (of_bytes frame).group_id) = (1, 0))) ∧
    (∀ (d0 d : Driver), init_espnow d0 = some d →
        esp_now_is_peer_exist d broadcast_mac = true) ∧
    (∀ (d : Driver) (clock : Nat → Nat),
        ((iterate clock 4 (loop_start d)).st.driver.sent.drop d.sent.length).map
            (fun c => (c.dst, (of_bytes c.data).sequence_num, (of_bytes c.data).message_type,
                       (of_bytes c.data).group_id))
          = [(broadcast_mac, 1, 1, 0), (broadcast_mac, 2, 2, 1), (broadcast_mac, 3, 3, 2),
             (broadcast_mac, 4, 1, 0)]) := by
  refine ⟨?_, init_espnow_registers, ?_⟩
  · intro d clock n hn
    obtain ⟨message, t, g, hrot, hsent⟩ := iterate_step_sent d clock n hn
    refine ⟨_, hsent, rfl, ?_, ?_, ?_, ?_, ?_, ?_⟩
    · rw [sizeof_eq_214]; exact length_pkt _ _ _ _ _
    · rw [pkt_decoded _ _ _ _ _ (by omega)]; rfl
    · intro h0
      rw [pkt_decoded _ _ _ _ _ (by omega)]
      rcases hrot with h | h | h | h
      · obtain ⟨_, ht, hg⟩ := h; subst ht; subst hg; rfl
      · omega
      · omega
      · omega
    · intro h0
      rw [pkt_decoded _ _ _ _ _ (by omega)]
      rcases hrot with h | h | h | h
      · omega
      · obtain ⟨_, ht, hg⟩ := h; subst ht; subst hg; rfl
      · omega
      · omega
    · intro h0
      rw [pkt_decoded _ _ _ _ _ (by omega)]
      rcases hrot with h | h | h | h
      · omega
      · omega
      · obtain ⟨_, ht, hg⟩ := h; subst ht; subst hg; rfl
      · omega
    · intro h0
      rw [pkt_decoded _ _ _ _ _ (by omega)]
      rcases hrot with h | h | h | h
      · omega
      · omega
      · omega
      · obtain ⟨_, ht, hg⟩ := h; subst ht; subst hg; rfl
  · intro d clock
    obtain ⟨m0, t0, g0, r0, s0⟩ := iterate_step_sent d clock 0 (by decide)
    obtain ⟨m1, t1, g1, r1, s1⟩ := iterate_step_sent d clock 1 (by decide)
    obtain ⟨m2, t2, g2, r2, s2⟩ := iterate_step_sent d clock 2 (by decide)
    obtain ⟨m3, t3, g3, r3, s3⟩ := iterate_step_sent d clock 3 (by decide)
    have hstart : (iterate clock 0 (loop_start d)).st.driver.sent = d.sent := rfl
    have e0 : t0 = 1 ∧ g0 = 0 := by
      rcases r0 with h | h | h | h
      · exact h.2
      all_goals exact absurd h.1 (by decide)
    have e1 : t1 = 2 ∧ g1 = 1 := by
      rcases r1 with h | h | h | h
      · exact absurd h.1 (by decide)
      · exact h.2
      all_goals exact absurd h.1 (by decide)
    have e2 : t2 = 3 ∧ g2 = 2 := by
      rcases r2 with h | h | h | h
      · exact absurd h.1 (by decide)
      · exact absurd h.1 (by decide)
      · exact h.2
      · exact absurd h.1 (by decide)
    have e3 : t3 = 1 ∧ g3 = 0 := by
      rcases r3 with h | h | h | h
      · exact absurd h.1 (by decide)
      · exact absurd h.1 (by decide)
      · exact absurd h.1 (by decide)
      · exact h.2
    rw [s3, s2, s1, s0, hstart]
    simp only [List.append_assoc, List.drop_left, List.singleton_append, List.cons_append,
      List.nil_append, List.map_cons, List.map_nil]
    rw [pkt_decoded (0 + 1) m0 t0 g0 (clock 0) (by decide),
      pkt_decoded (1 + 1) m1 t1 g1 (clock 1) (by decide),
      pkt_decoded (2 + 1) m2 t2 g2 (clock 2) (by decide),
      pkt_decoded (3 + 1) m3 t3 g3 (clock 3) (by decide),
      e0.1, e0.2, e1.1, e1.2, e2.1, e2.2, e3.1, e3.2]
    rfl

/-- C5 (example): the sixth iteration (`n = 5`, so `n % 4 = 1`) on the driver left by
`init_espnow`, with a clock that advances 5 s per iteration, adds one command frame for
group 1 with sequence number 6. -/
theorem broadcast_cycle_witness :
    ∃ frame : List Byte,
      (iterate (fun i => 5000000 * i) (5 + 1)
          (loop_start { peers := [{ peer_addr := broadcast_mac, channel := 0,
                                    encrypt := false }],
                        max_peers := 20, sent := [] })).st.driver.sent
        = (iterate (fun i => 5000000 * i) 5
            (loop_start { peers := [{ peer_addr := broadcast_mac, channel := 0,
                                      encrypt := false }],
                          max_peers := 20, sent := [] })).st.driver.sent
            ++ [{ dst := broadcast_mac, data := frame, ok := true }] ∧
      (of_bytes frame).sequence_num = 5 + 1 ∧
      ((of_bytes frame).message_type, (of_bytes frame).group_id) = (2, 1) := by
  obtain ⟨frame, h1, _, _, h4, _, h6, _, _⟩ := broadcast_cycle.1
    { peers := [{ peer_addr := broadcast_mac, channel := 0, encrypt := false }],
      max_peers := 20, sent := [] } (fun i => 5000000 * i) 5 (by decide)
  exact ⟨frame, h1, h4, h6 (by decide)⟩

end EspNow.Broadcaster

/-! ## A broadcast frame as decoded by the group listener -/

namespace EspNow

/-- The listener's `rx` after a broadcaster frame: the first 210 bytes of the image of
`pkt`, whose last four bytes are the low half of the 64-bit `timestamp_ms`. -/
theorem listener_image_of_pkt (p : Broadcaster.broadcast_data_t)
    (hs : p.sender_id.length = 20) (hm : p.message.length = 180) :
    ReceiverG1.rx_image (Broadcaster.to_bytes p) (Broadcaster.to_bytes p).length
      = p.sender_id ++ p.message ++ [p.message_type] ++ [p.group_id]
          ++ le_bytes 4 p.sequence_num ++ le_bytes 4 p.timestamp_ms := by
  have hl := Broadcaster.length_to_bytes_214 p hs hm
  rw [ReceiverG1.rx_image_full _ (by omega)]
  have h8 : le_bytes 8 p.timestamp_ms
      = le_bytes 4 p.timestamp_ms ++ le_bytes 4 (p.timestamp_ms / 256 ^ 4) :=
    le_bytes_add 4 4 p.timestamp_ms
  unfold Broadcaster.to_bytes
  rw [h8, ← List.append_assoc]
  apply List.take_left'
  simp only [List.length_append, length_le_bytes, hs, hm, List.length_singleton]

/-- The fields the listener decodes from a broadcaster frame. -/
theorem listener_decodes_pkt (p : Broadcaster.broadcast_data_t)
    (hs : p.sender_id.length = 20) (hm : p.message.length = 180)
    (hq : p.sequence_num < 2 ^ 32) :
    ReceiverG1.of_bytes
        (ReceiverG1.rx_image (Broadcaster.to_bytes p) (Broadcaster.to_bytes p).length)
      = { sender_id := p.sender_id, message := p.message, message_type := p.message_type,
          group_id := p.group_id, sequence_num := p.sequence_num,
          timestamp_ms := p.timestamp_ms % 2 ^ 32 } := by
  rw [listener_image_of_pkt p hs hm]
  obtain ⟨h1, h2, h3, h4, h5, h6⟩ := image_fields p.sender_id p.message p.message_type
    p.group_id (le_bytes 4 p.sequence_num) (le_bytes 4 p.timestamp_ms) hs hm
    (length_le_bytes _ _)
  have h7 : List.take 4 (le_bytes 4 p.timestamp_ms) = le_bytes 4 p.timestamp_ms :=
    List.take_of_length_le (by rw [length_le_bytes])
  simp only [ReceiverG1.of_bytes]
  rw [h1, h2, h3, h4, h5, h6, h7, le_value_le_bytes, le_value_le_bytes,
    Nat.mod_eq_of_lt (by omega)]
  rfl

/-- C6 (code evaluated): for every frame `send_broadcast` builds, the listener's decode
returns the broadcaster's `sender_id`, `message`, `message_type`, `group_id` and
`sequence_num`, but its `timestamp_ms` is the broadcaster's 64-bit value reduced modulo
`2 ^ 32`.  At the clock reading 4294967296000 us the broadcaster's `timestamp_ms` is
4294967296 and the listener decodes 0. -/
theorem listener_truncates_timestamp :
    (∀ (st : Broadcaster.State) (message : List Byte) (t g : Byte) (now : Nat),
        (Broadcaster.send_broadcast st message t g now).1.driver.sent
          = st.driver.sent
              ++ [{ dst := Broadcaster.broadcast_mac,
                    data := Broadcaster.to_bytes (Broadcaster.send_broadcast_pkt
                              (to_uint32 (st.sequence_counter + 1)) message t g now),
                    ok := esp_now_is_peer_exist st.driver Broadcaster.broadcast_mac }] ∧
        ReceiverG1.of_bytes
            (ReceiverG1.rx_image
              (Broadcaster.to_bytes (Broadcaster.send_broadcast_pkt
                (to_uint32 (st.sequence_counter + 1)) message t g now))
              (Broadcaster.to_bytes (Broadcaster.send_broadcast_pkt
                (to_uint32 (st.sequence_counter + 1)) message t g now)).length)
          = { sender_id := (Broadcaster.send_broadcast_pkt
                (to_uint32 (st.sequence_counter + 1)) message t g now).sender_id,
              message := (Broadcaster.send_broadcast_pkt
                (to_uint32 (st.sequence_counter + 1)) message t g now).message,
              message_type := t,
              group_id := g,
              sequence_num := to_uint32 (st.sequence_counter + 1),
              timestamp_ms := (Broadcaster.send_broadcast_pkt
                (to_uint32 (st.sequence_counter + 1)) message t g now).timestamp_ms
                  % 2 ^ 32 }) ∧
    (Broadcaster.send_broadcast_pkt 1 (cstr "General announcement to all devices") 1 0
        4294967296000).timestamp_ms = 4294967296 ∧
    (ReceiverG1.of_bytes
        (ReceiverG1.rx_image
          (Broadcaster.to_bytes (Broadcaster.send_broadcast_pkt 1
            (cstr "General announcement to all devices") 1 0 4294967296000))
          (Broadcaster.to_bytes (Broadcaster.send_broadcast_pkt 1
            (cstr "General announcement to all devices") 1 0 4294967296000)).length)).timestamp_ms
      = 0 := by
  refine ⟨?_, by decide, ?_⟩
  · intro st message t g now
    refine ⟨rfl, ?_⟩
    rw [listener_decodes_pkt _ (length_snprintf_s _ _) (length_snprintf_s _ _)
      (Nat.mod_lt _ (by decide))]
    rfl
  · rw [listener_decodes_pkt _ (length_snprintf_s _ _) (length_snprintf_s _ _) (by decide)]
    decide

end EspNow
